import Mathlib

/-!
Shallow embedding of the authentication and download-synchronizer core of
the notebook-lm-generation repository.

The two source files embedded here are `src/auth/google_auth.py`
(class `GoogleAuthenticator`) and `src/utils/downloader.py`
(class `Downloader`).  Browser, filesystem and clock behaviour are the
environment: each run is parameterised by a record of boolean outcomes
(element present, wait predicate satisfied, file listings per poll tick),
and each embedded operation returns its Python return value together with
a trace of the externally observable actions it performed (driver
creation, navigations, keystrokes, cookie writes, file moves), so that
frame conditions ("no save on this path", "no polling after trigger
failure") are statable.
-/

/-- Observable actions of `GoogleAuthenticator` methods. -/
inductive AuthEvent where
  | createDriver
  | readCookieFile
  | navigate (url : String)
  | addCookie (idx : Nat)
  | enterEmail
  | enterPassword
  | checkSignedIn
  | saveCookies
  deriving DecidableEq, Repr

/-- The credential fields of a `GoogleAuthenticator` instance
(`self.email`, `self.password`); `none` models Python `None`/empty. -/
structure Authenticator where
  email : Option String
  password : Option String

/-- Environment of one `login_google` run: what the browser, cookie file
and the human at the keyboard do at each decision point of the code. -/
structure AuthEnv where
  /-- `cookies_path.exists()` in `_load_cookies`. -/
  cookieFileExists : Bool
  /-- whether `pickle.load` succeeds in `_load_cookies`. -/
  cookieFileReadable : Bool
  /-- one flag per stored cookie: whether `driver.add_cookie` succeeds. -/
  cookies : List Bool
  /-- result of the `_is_logged_in` probe right after cookie restore. -/
  restoredSignedIn : Bool
  /-- the email input appears within the 10s `WebDriverWait`. -/
  emailInputPresent : Bool
  /-- the password input appears within the 10s `WebDriverWait`. -/
  passwordInputPresent : Bool
  /-- a phone-verification challenge marker is on the page. -/
  phoneChallengePresent : Bool
  /-- a 2-Step-Verification challenge marker is on the page. -/
  twoStepChallengePresent : Bool
  /-- the URL polling predicate (`myaccount`/`mail` in URL) becomes true
  within the 120s `WebDriverWait` of `_handle_verification`. -/
  verificationUrlReached : Bool
  /-- result of the final `_is_logged_in` check. -/
  finalSignedIn : Bool

def googleUrl : String := "https://www.google.com"

def accountsUrl : String := "https://accounts.google.com"

def signinUrl : String := "https://accounts.google.com/signin"

def myaccountUrl : String := "https://myaccount.google.com"

/-- Python `arg or self.field`: the argument when given, else the
instance field (`email = email or self.email`). -/
def effective (arg inst : Option String) : Option String :=
  match arg with
  | some v => some v
  | none => inst

/-- Embeds `GoogleAuthenticator._load_cookies`.  Returns `False` when the
cookie file is absent, `False` when deserialization fails (the outer
`except`), and otherwise navigates to the Google root, injects each
cookie individually — a cookie whose `add_cookie` raises is skipped by
the per-cookie `except Exception: pass` — and returns `True`.
`addCookieEvents` is the injection trace of that per-cookie loop: the
positions whose cookie was accepted, in order. -/
def addCookieEvents (env : AuthEnv) : List AuthEvent :=
  ((List.range env.cookies.length).filter
    (fun i => env.cookies.getD i false)).map AuthEvent.addCookie

/-- Embeds `GoogleAuthenticator._load_cookies` (see `addCookieEvents`). -/
def loadCookies (env : AuthEnv) : Bool × List AuthEvent :=
  if env.cookieFileExists then
    if env.cookieFileReadable then
      (true, AuthEvent.readCookieFile :: AuthEvent.navigate googleUrl ::
        addCookieEvents env)
    else (false, [AuthEvent.readCookieFile])
  else (false, [])

/-- Embeds `GoogleAuthenticator._is_logged_in`: navigates to the
"my account" endpoint and reports the signed-in indicator, whose value at
this call site the environment supplies as `signedIn`. -/
def isLoggedIn (signedIn : Bool) : Bool × List AuthEvent :=
  (signedIn, [AuthEvent.navigate myaccountUrl, AuthEvent.checkSignedIn])

/-- Embeds `GoogleAuthenticator._handle_verification`.  If a challenge
marker is found, it waits up to 120s for the URL predicate; expiry of
that wait raises `TimeoutException`, which the method's own
`except Exception` catches, returning `False`.  No marker found returns
`False` without blocking. -/
def handleVerification (env : AuthEnv) : Bool :=
  if env.phoneChallengePresent then env.verificationUrlReached
  else if env.twoStepChallengePresent then env.verificationUrlReached
  else false

/-- Embeds the credential-entry part of `login_google` (navigate to the
sign-in page, email and password entry, verification handling, final
signed-in check, cookie save on success).  A `WebDriverWait` that expires
raises `TimeoutException`, caught by `login_google`'s `except`, so the
run stops there with `False`. -/
def credentialLogin (env : AuthEnv) : Bool × List AuthEvent :=
  if env.emailInputPresent then
    if env.passwordInputPresent then
      let _ := handleVerification env
      let (li, liEvents) := isLoggedIn env.finalSignedIn
      if li then
        (true, AuthEvent.navigate signinUrl :: AuthEvent.enterEmail ::
          AuthEvent.enterPassword :: liEvents ++ [AuthEvent.saveCookies])
      else
        (false, AuthEvent.navigate signinUrl :: AuthEvent.enterEmail ::
          AuthEvent.enterPassword :: liEvents)
    else (false, [AuthEvent.navigate signinUrl, AuthEvent.enterEmail])
  else (false, [AuthEvent.navigate signinUrl])

/-- The body of `login_google` after the credential presence check:
create the driver, attempt cookie restore, probe the restored session,
and otherwise fall into credential entry. -/
def loginBody (env : AuthEnv) : Bool × List AuthEvent :=
  let (loaded, loadEvents) := loadCookies env
  if loaded then
    let (li, liEvents) := isLoggedIn env.restoredSignedIn
    if li then
      (true, AuthEvent.createDriver :: loadEvents ++
        AuthEvent.navigate accountsUrl :: liEvents)
    else
      let (r, evs) := credentialLogin env
      (r, AuthEvent.createDriver :: loadEvents ++
        AuthEvent.navigate accountsUrl :: liEvents ++ evs)
  else
    let (r, evs) := credentialLogin env
    (r, AuthEvent.createDriver :: loadEvents ++ evs)

/-- Embeds `GoogleAuthenticator.login_google`.  Effective credentials are
`arg or self.field`; if either is missing the method returns `False`
before `self.get_driver()` is called, so no driver, navigation or cookie
action happens. -/
def login_google (auth : Authenticator) (argEmail argPassword : Option String)
    (env : AuthEnv) : Bool × List AuthEvent :=
  match effective argEmail auth.email, effective argPassword auth.password with
  | some _, some _ => loginBody env
  | _, _ => (false, [])

/-- Recognizer for the cookie-save action, for counting saves. -/
def isSave : AuthEvent → Bool
  | AuthEvent.saveCookies => true
  | _ => false

/-- How many times a trace persists cookies. -/
def countSaves (tr : List AuthEvent) : Nat := (tr.filter isSave).length

/-! ## Downloader (`src/utils/downloader.py`) -/

/-- Observable actions of `Downloader.download_from_browser`. -/
inductive DlEvent where
  | snapshotBefore
  | clickButton
  | pollTick
  | moveFile (src dst : String)
  | logTimeout
  | logError
  deriving DecidableEq, Repr

/-- The `Downloader` instance: its output root directory. -/
structure Downloader where
  output_dir : String

/-- The keys of `self.dirs` built in `Downloader.__init__`. -/
def categories : List String :=
  ["videos", "handouts", "cheatsheets", "mindmaps", "audiobooks", "stories",
   "strategies", "flashcards", "anki", "quizzes", "discussions"]

/-- The `self.dirs` mapping of `Downloader.__init__`: each category maps
to a subdirectory of the output root named after it. -/
def dirs (d : Downloader) : List (String × String) :=
  categories.map (fun c => (c, d.output_dir ++ "/" ++ c))

/-- Embeds `Downloader.get_dir`:
`self.dirs.get(content_type, self.output_dir)`. -/
def get_dir (d : Downloader) (content_type : String) : String :=
  match (dirs d).lookup content_type with
  | some p => p
  | none => d.output_dir

/-- Python `s.endswith(suffix)`: the suffix relation on the character
sequences (spelled over `List Char` so that concrete instances reduce in
the kernel). -/
def strEndsWith (s suffix : String) : Bool := suffix.data.isSuffixOf s.data

/-- A filename carries an in-progress download suffix
(`f.name.endswith(('.crdownload', '.part', '.tmp'))`). -/
def isInProgress (name : String) : Bool :=
  strEndsWith name ".crdownload" || strEndsWith name ".part" ||
    strEndsWith name ".tmp"

/-- One poll step's `complete_files`: the listing minus the before-set
(`files_after - files_before`), in-progress entries discarded.  `after`
is the current listing in the iteration order of the Python set
`new_files`, which the language leaves unspecified; the embedding takes
that order as environment input. -/
def newComplete (before after : List String) : List String :=
  (after.filter (fun f => !(before.contains f))).filter
    (fun f => !(isInProgress f))

/-- Environment of one `download_from_browser` run. -/
structure DlEnv where
  /-- the download button becomes clickable within the 10s wait. -/
  buttonClickable : Bool
  /-- `files_before`: the download-directory listing before the click. -/
  before : List String
  /-- the directory listing observed at each iteration of the polling
  `while` loop; the list's length is the number of iterations the
  wall-clock timeout admits (each iteration sleeps 1s, so at most
  `timeout` of them happen). -/
  polls : List (List String)
  /-- `shutil.move` succeeds. -/
  moveOk : Bool

/-- The polling `while` loop of `download_from_browser`: at each tick,
compute the complete new files; if any, `new_file = complete_files[0]`
and break; else sleep and re-poll.  Exhausting the tick budget leaves
`new_file` as `None`. -/
def pollLoop (before : List String) : List (List String) → Option String × List DlEvent
  | [] => (none, [])
  | after :: rest =>
    match newComplete before after with
    | [] =>
      let (r, evs) := pollLoop before rest
      (r, DlEvent.pollTick :: evs)
    | f :: _ => (some f, [DlEvent.pollTick])

/-- Embeds `Downloader.download_from_browser`.  Snapshot the directory,
click the button — a `TimeoutException` from the clickability wait jumps
to the `except`, logging an error and returning `None` with no polling —
then poll; `new_file` still `None` after the loop logs a timeout and
returns `None`; otherwise move the file to
`get_dir(content_type)/filename.expected_extension` and return that
path, a failing move again reaching the `except` and returning `None`. -/
def download_from_browser (d : Downloader) (env : DlEnv)
    (filename content_type expected_extension : String) :
    Option String × List DlEvent :=
  if env.buttonClickable then
    match pollLoop env.before env.polls with
    | (none, pollEvents) =>
      (none, DlEvent.snapshotBefore :: DlEvent.clickButton ::
        pollEvents ++ [DlEvent.logTimeout])
    | (some f, pollEvents) =>
      let outputPath :=
        get_dir d content_type ++ "/" ++ filename ++ "." ++ expected_extension
      if env.moveOk then
        (some outputPath, DlEvent.snapshotBefore :: DlEvent.clickButton ::
          pollEvents ++ [DlEvent.moveFile f outputPath])
      else
        (none, DlEvent.snapshotBefore :: DlEvent.clickButton ::
          pollEvents ++ [DlEvent.logError])
  else
    (none, [DlEvent.snapshotBefore, DlEvent.logError])

/-- Lexicographic order on character sequences (how Python compares
filenames as strings), spelled out so concrete instances reduce in the
kernel. -/
def charListLe : List Char → List Char → Bool
  | [], _ => true
  | _ :: _, [] => false
  | a :: as, b :: bs =>
    if a < b then true
    else if b < a then false
    else charListLe as bs

/-- Lexicographic order on filenames. -/
def strLe (a b : String) : Bool := charListLe a.data b.data

/-- Modelled from the spec: "if more than one, select deterministically —
the first by name".  The least complete new filename in lexicographic
string order, for comparison with the selection the code makes. -/
def specFirstByName (before after : List String) : Option String :=
  (newComplete before after).foldr
    (fun a acc =>
      match acc with
      | none => some a
      | some b => some (if strLe a b then a else b)) none

/-! ## Concrete runs used as witnesses and counterexamples -/

/-- A run with no saved cookies in which a phone challenge appears after
credential submission and is never cleared: the 120s URL wait expires and
the final signed-in check fails. -/
def verificationTimeoutEnv : AuthEnv where
  cookieFileExists := false
  cookieFileReadable := false
  cookies := []
  restoredSignedIn := false
  emailInputPresent := true
  passwordInputPresent := true
  phoneChallengePresent := true
  twoStepChallengePresent := false
  verificationUrlReached := false
  finalSignedIn := false

/-- A run failing for an unrelated reason: the password input never
appears within its bounded wait (the spec's `Failed(Timeout)`). -/
def passwordTimeoutEnv : AuthEnv where
  cookieFileExists := false
  cookieFileReadable := false
  cookies := []
  restoredSignedIn := false
  emailInputPresent := true
  passwordInputPresent := false
  phoneChallengePresent := false
  twoStepChallengePresent := false
  verificationUrlReached := false
  finalSignedIn := false

/-- A run in which the saved cookie file restores a still-valid session:
the signed-in probe right after restore succeeds. -/
def validSessionEnv : AuthEnv where
  cookieFileExists := true
  cookieFileReadable := true
  cookies := [true]
  restoredSignedIn := true
  emailInputPresent := true
  passwordInputPresent := true
  phoneChallengePresent := false
  twoStepChallengePresent := false
  verificationUrlReached := false
  finalSignedIn := false

/-- A cookie restore in which the second of three stored cookies is
rejected by `add_cookie` while the others inject fine. -/
def mixedCookiesEnv : AuthEnv where
  cookieFileExists := true
  cookieFileReadable := true
  cookies := [true, false, true]
  restoredSignedIn := false
  emailInputPresent := true
  passwordInputPresent := true
  phoneChallengePresent := false
  twoStepChallengePresent := false
  verificationUrlReached := false
  finalSignedIn := true

/-- A download whose trigger click fails even though a file would have
appeared in the directory. -/
def triggerFailedEnv : DlEnv where
  buttonClickable := false
  before := ["a.pdf"]
  polls := [["a.pdf", "b.pdf"]]
  moveOk := true

/-- A download in which the only new entry stays an in-progress artifact
for the whole wait window. -/
def neverCompletesEnv : DlEnv where
  buttonClickable := true
  before := ["a.pdf"]
  polls := [["a.pdf", "x.crdownload"], ["a.pdf", "x.crdownload"]]
  moveOk := true

/-- A download that completes but whose relocation move fails. -/
def moveFailsEnv : DlEnv where
  buttonClickable := true
  before := []
  polls := [["b.pdf"]]
  moveOk := false

/-- The spec's rename scenario: `b.crdownload` appears at the first poll
and has been renamed to `b.pdf` by the second. -/
def renameEnv : DlEnv where
  buttonClickable := true
  before := ["a.pdf"]
  polls := [["a.pdf", "b.crdownload"], ["a.pdf", "b.pdf"]]
  moveOk := true

/-- A wait window in which the directory never changes. -/
def noNewFileEnv : DlEnv where
  buttonClickable := true
  before := ["a.pdf"]
  polls := [["a.pdf"], ["a.pdf"]]
  moveOk := true

/-- A poll whose listing order (set iteration order) presents `b.pdf`
before `a.pdf`, both being complete new files. -/
def unsortedListingEnv : DlEnv where
  buttonClickable := true
  before := []
  polls := [["b.pdf", "a.pdf"]]
  moveOk := true

/-! ## Helper lemmas -/

theorem countSaves_nil : countSaves [] = 0 := rfl

theorem countSaves_cons (e : AuthEvent) (tr : List AuthEvent) :
    countSaves (e :: tr) = cond (isSave e) 1 0 + countSaves tr := by
  simp only [countSaves, List.filter_cons]
  cases h : isSave e <;> simp [h] <;> omega

theorem countSaves_append (a b : List AuthEvent) :
    countSaves (a ++ b) = countSaves a + countSaves b := by
  simp [countSaves, List.filter_append]

theorem countSaves_map_addCookie (l : List Nat) :
    countSaves (l.map AuthEvent.addCookie) = 0 := by
  induction l with
  | nil => rfl
  | cons i t ih => simp [countSaves_cons, isSave, ih]

theorem countSaves_addCookieEvents (env : AuthEnv) :
    countSaves (addCookieEvents env) = 0 := by
  simp [addCookieEvents, countSaves_map_addCookie]

theorem countSaves_loadCookies (env : AuthEnv) :
    countSaves (loadCookies env).2 = 0 := by
  unfold loadCookies
  by_cases h1 : env.cookieFileExists <;> by_cases h2 : env.cookieFileReadable <;>
    simp [h1, h2, countSaves_cons, countSaves_nil, countSaves_addCookieEvents, isSave]

theorem mem_addCookieEvents {env : AuthEnv} {e : AuthEvent}
    (h : e ∈ addCookieEvents env) : ∃ i, e = AuthEvent.addCookie i := by
  unfold addCookieEvents at h
  obtain ⟨i, _, rfl⟩ := List.mem_map.mp h
  exact ⟨i, rfl⟩

theorem countSaves_credentialLogin (env : AuthEnv) :
    countSaves (credentialLogin env).2 = cond (credentialLogin env).1 1 0 := by
  unfold credentialLogin isLoggedIn
  by_cases h1 : env.emailInputPresent <;> by_cases h2 : env.passwordInputPresent <;>
    by_cases h3 : env.finalSignedIn <;>
      simp [h1, h2, h3, countSaves_cons, countSaves_append, countSaves_nil, isSave]

theorem mem_pollLoop_events (before : List String) :
    ∀ (polls : List (List String)) (e : DlEvent),
      e ∈ (pollLoop before polls).2 → e = DlEvent.pollTick := by
  intro polls
  induction polls with
  | nil => intro e h; simp [pollLoop] at h
  | cons after rest ih =>
    intro e h
    unfold pollLoop at h
    cases hnc : newComplete before after with
    | nil =>
      rw [hnc] at h
      rcases hrest : pollLoop before rest with ⟨r, evs⟩
      rw [hrest] at h
      simp only [List.mem_cons] at h
      rcases h with h | h
      · exact h
      · exact ih e (by rw [hrest]; exact h)
    | cons g t =>
      rw [hnc] at h
      simp only [List.mem_singleton] at h
      exact h

theorem pollLoop_some_not_inProgress (before : List String) :
    ∀ (polls : List (List String)) (f : String),
      (pollLoop before polls).1 = some f → isInProgress f = false := by
  intro polls
  induction polls with
  | nil => intro f h; simp [pollLoop] at h
  | cons after rest ih =>
    intro f h
    unfold pollLoop at h
    cases hnc : newComplete before after with
    | nil =>
      rw [hnc] at h
      rcases hrest : pollLoop before rest with ⟨r, evs⟩
      rw [hrest] at h
      simp only at h
      exact ih f (by rw [hrest]; exact h)
    | cons g t =>
      rw [hnc] at h
      simp only [Option.some.injEq] at h
      have hg : g ∈ newComplete before after := by
        rw [hnc]; exact List.mem_cons_self g t
      have h2 := (List.mem_filter.mp hg).2
      rw [← h]
      simpa using h2

theorem pollLoop_none_of_all_empty (before : List String) :
    ∀ (polls : List (List String)),
      (∀ after ∈ polls, newComplete before after = []) →
      (pollLoop before polls).1 = none := by
  intro polls
  induction polls with
  | nil => intro _; rfl
  | cons after rest ih =>
    intro h
    unfold pollLoop
    rw [h after (List.mem_cons_self after rest)]
    rcases hrest : pollLoop before rest with ⟨r, evs⟩
    have := ih (fun a ha => h a (List.mem_cons_of_mem after ha))
    rw [hrest] at this
    simpa [hrest] using this

theorem lookup_map_self (f : String → String) (l : List String) (k : String) :
    ((l.map (fun c => (c, f c))).lookup k) =
      if k ∈ l then some (f k) else none := by
  induction l with
  | nil => simp [List.lookup]
  | cons c t ih =>
    by_cases h : k = c
    · subst h; simp [List.lookup]
    · have hbeq : (k == c) = false := beq_eq_false_iff_ne.mpr h
      simp only [List.map_cons, List.lookup, hbeq]
      rw [ih]
      simp [List.mem_cons, h]

theorem login_google_eq_loginBody (auth : Authenticator)
    (argEmail argPassword : Option String) (env : AuthEnv) (e p : String)
    (hE : effective argEmail auth.email = some e)
    (hP : effective argPassword auth.password = some p) :
    login_google auth argEmail argPassword env = loginBody env := by
  unfold login_google
  rw [hE, hP]

theorem credentialLogin_fst_false_of_final (env : AuthEnv)
    (hFinal : env.finalSignedIn = false) :
    (credentialLogin env).1 = false := by
  unfold credentialLogin isLoggedIn
  by_cases h1 : env.emailInputPresent <;> by_cases h2 : env.passwordInputPresent <;>
    simp [h1, h2, hFinal]

theorem loginBody_fst_of_not_restored (env : AuthEnv)
    (hRestore : env.restoredSignedIn = false) :
    (loginBody env).1 = (credentialLogin env).1 := by
  unfold loginBody isLoggedIn
  rcases hl : loadCookies env with ⟨loaded, loadEvents⟩
  rcases hc : credentialLogin env with ⟨r, evs⟩
  cases loaded <;> simp [hl, hc, hRestore]

/-! ## Claim theorems -/

/-- C1 (amended).  When a verification challenge is detected after
credential submission and the URL polling predicate never becomes true
within the 120-second window, `login_google` returns failure — but as the
plain boolean `False`, not a distinct variant: the `TimeoutException`
raised by the expired 120s wait is swallowed by `_handle_verification`'s
own `except Exception` (which returns `False`), after which
`login_google` proceeds to the final signed-in check and fails there,
exactly as a login that never saw a challenge would. -/
theorem login_verification_timeout_returns_false
    (auth : Authenticator) (argEmail argPassword : Option String) (env : AuthEnv)
    (hRestore : env.restoredSignedIn = false)
    (hEmail : env.emailInputPresent = true)
    (hPwd : env.passwordInputPresent = true)
    (hChallenge : env.phoneChallengePresent = true ∨
      env.twoStepChallengePresent = true)
    (hNoUrl : env.verificationUrlReached = false)
    (hFinal : env.finalSignedIn = false) :
    (login_google auth argEmail argPassword env).1 = false := by
  cases hE : effective argEmail auth.email with
  | none =>
    unfold login_google
    rw [hE]
  | some e =>
    cases hP : effective argPassword auth.password with
    | none =>
      unfold login_google
      rw [hE, hP]
    | some p =>
      rw [login_google_eq_loginBody auth argEmail argPassword env e p hE hP]
      rw [loginBody_fst_of_not_restored env hRestore]
      exact credentialLogin_fst_false_of_final env hFinal

/-- C1 (counterexample to the claim as stated).  The code has no distinct
`Failed(VerificationTimeout)` outcome: `login_google` returns the same
plain `False` for the run in which the challenge was detected and never
cleared within the 120s window as for a run that failed much earlier for
an unrelated reason (the password input never appeared), so the
verification-timeout failure is not distinguishable in the value returned
to the caller. -/
theorem login_verification_timeout_not_distinct :
    (login_google ⟨some "e", some "p"⟩ none none verificationTimeoutEnv).1 = false ∧
    (login_google ⟨some "e", some "p"⟩ none none passwordTimeoutEnv).1 = false ∧
    (login_google ⟨some "e", some "p"⟩ none none verificationTimeoutEnv).1 =
      (login_google ⟨some "e", some "p"⟩ none none passwordTimeoutEnv).1 := by
  refine ⟨rfl, rfl, rfl⟩

/-- C1 (witness).  The amended theorem applied to the concrete
never-cleared-challenge run. -/
theorem login_verification_timeout_returns_false_witness :
    (login_google ⟨some "e", some "p"⟩ none none verificationTimeoutEnv).1 = false :=
  login_verification_timeout_returns_false ⟨some "e", some "p"⟩ none none
    verificationTimeoutEnv rfl rfl rfl (Or.inl rfl) rfl rfl

/-- C2 (amended).  The file selected by `download_from_browser`'s polling
loop is deterministic only in the observed listing order: it is the head
of the list of complete new files in the iteration order of the Python
set `files_after - files_before` (`complete_files[0]`), an order the
language does not tie to filename ordering. -/
theorem download_select_head_of_listing
    (before after : List String) (rest : List (List String))
    (h : newComplete before after ≠ []) :
    (pollLoop before (after :: rest)).1 = (newComplete before after).head? := by
  cases hnc : newComplete before after with
  | nil => exact absurd hnc h
  | cons f t => simp [pollLoop, hnc]

/-- C2 (counterexample to the claim as stated).  With two complete new
files whose listing order presents `b.pdf` first, the code selects
`b.pdf` (`complete_files[0]`), while the first by filename ordering is
`a.pdf`; and the full operation indeed relocates `b.pdf`.  So the
selection is not "the first by filename ordering". -/
theorem download_select_not_first_by_name :
    (pollLoop [] [["b.pdf", "a.pdf"]]).1 = some "b.pdf" ∧
    specFirstByName [] ["b.pdf", "a.pdf"] = some "a.pdf" ∧
    DlEvent.moveFile "b.pdf" "out/handouts/r.pdf" ∈
      (download_from_browser ⟨"out"⟩ unsortedListingEnv "r" "handouts" "pdf").2 := by
  refine ⟨by decide, by decide, by decide⟩

/-- C2 (witness).  The amended theorem applied to the unsorted listing:
the selection equals the head of the complete-new-file list in listing
order. -/
theorem download_select_head_of_listing_witness :
    (pollLoop [] [["b.pdf", "a.pdf"]]).1 =
      (newComplete [] ["b.pdf", "a.pdf"]).head? :=
  download_select_head_of_listing [] ["b.pdf", "a.pdf"] [] (by decide)

/-- C3 (amended).  When the download button is not clickable within the
bounded wait, the operation returns immediately with no directory
polling; but the three failure modes are not distinguishable in the value
returned to the caller — `download_from_browser` returns `None` for all
of them (see the counterexample theorem); they differ only in the log
message emitted. -/
theorem trigger_failed_no_polling
    (d : Downloader) (env : DlEnv) (filename content_type ext : String)
    (h : env.buttonClickable = false) :
    (download_from_browser d env filename content_type ext).1 = none ∧
    DlEvent.pollTick ∉ (download_from_browser d env filename content_type ext).2 := by
  unfold download_from_browser
  rw [h]
  simp

/-- C3 (counterexample to the claim as stated).  Trigger failure, timeout
and relocation failure all return the same `None`: the caller cannot tell
them apart from the returned value. -/
theorem download_failures_indistinguishable :
    (download_from_browser ⟨"out"⟩ triggerFailedEnv "r" "handouts" "pdf").1 = none ∧
    (download_from_browser ⟨"out"⟩ neverCompletesEnv "r" "handouts" "pdf").1 = none ∧
    (download_from_browser ⟨"out"⟩ moveFailsEnv "r" "handouts" "pdf").1 = none := by
  refine ⟨by decide, by decide, by decide⟩

/-- C3 (witness).  The amended theorem applied to the concrete
unclickable-button run, in which a file would have appeared had polling
happened. -/
theorem trigger_failed_no_polling_witness :
    (download_from_browser ⟨"out"⟩ triggerFailedEnv "r" "handouts" "pdf").1 = none ∧
    DlEvent.pollTick ∉
      (download_from_browser ⟨"out"⟩ triggerFailedEnv "r" "handouts" "pdf").2 :=
  trigger_failed_no_polling ⟨"out"⟩ triggerFailedEnv "r" "handouts" "pdf" rfl

/-- C5.  The synchronizer never relocates (hence never returns) a file
whose name ends in `.crdownload`, `.part` or `.tmp`: any file the
operation moves was selected from `complete_files`, which filters those
suffixes out. -/
theorem download_never_returns_in_progress
    (d : Downloader) (env : DlEnv) (filename content_type ext src dst : String)
    (h : DlEvent.moveFile src dst ∈
      (download_from_browser d env filename content_type ext).2) :
    isInProgress src = false := by
  unfold download_from_browser at h
  by_cases hb : env.buttonClickable
  · rw [if_pos hb] at h
    rcases hp : pollLoop env.before env.polls with ⟨r, pev⟩
    rw [hp] at h
    have hpev : DlEvent.moveFile src dst ∉ pev := by
      intro hh
      have := mem_pollLoop_events env.before env.polls _ (by rw [hp]; exact hh)
      exact DlEvent.noConfusion this
    cases r with
    | none =>
      simp at h
      exact absurd h hpev
    | some f =>
      by_cases hm : env.moveOk
      · simp [hm] at h
        rcases h with h | ⟨h1, h2⟩
        · exact absurd h hpev
        · subst h1
          exact pollLoop_some_not_inProgress env.before env.polls src (by rw [hp])
      · simp [hm] at h
        exact absurd h hpev
  · rw [if_neg hb] at h
    simp at h

/-- C5 (witness).  The spec's rename scenario: `b.crdownload` appears at
the first poll, is renamed to `b.pdf` by the second, and the file the
operation relocates is `b.pdf` — selected at the first poll interval
after the rename — which carries no in-progress suffix. -/
theorem download_never_returns_in_progress_witness :
    DlEvent.moveFile "b.pdf" "out/handouts/r.pdf" ∈
      (download_from_browser ⟨"out"⟩ renameEnv "r" "handouts" "pdf").2 ∧
    isInProgress "b.pdf" = false :=
  ⟨by decide,
   download_never_returns_in_progress ⟨"out"⟩ renameEnv "r" "handouts" "pdf"
     "b.pdf" "out/handouts/r.pdf" (by decide)⟩

/-- C7.  If no qualifying new file ever appears during the wait window —
the complete-new-file set is empty at every poll — the loop runs out of
its wall-clock budget (the embedding's `polls` list, one entry per
iteration the `while time.time() - start_time < timeout` condition
admits; the recursion is structural, so it terminates) and the operation
returns `None` through the timed-out branch. -/
theorem download_timeout_terminates
    (d : Downloader) (env : DlEnv) (filename content_type ext : String)
    (hClick : env.buttonClickable = true)
    (hNone : ∀ after ∈ env.polls, newComplete env.before after = []) :
    (download_from_browser d env filename content_type ext).1 = none ∧
    DlEvent.logTimeout ∈
      (download_from_browser d env filename content_type ext).2 := by
  have hpoll := pollLoop_none_of_all_empty env.before env.polls hNone
  unfold download_from_browser
  rcases hp : pollLoop env.before env.polls with ⟨r, pev⟩
  rw [hp] at hpoll
  simp only at hpoll
  subst hpoll
  rw [hClick]
  simp

/-- C7 (witness).  The theorem applied to a run whose directory never
changes across the whole window. -/
theorem download_timeout_terminates_witness :
    (download_from_browser ⟨"out"⟩ noNewFileEnv "r" "handouts" "pdf").1 = none ∧
    DlEvent.logTimeout ∈
      (download_from_browser ⟨"out"⟩ noNewFileEnv "r" "handouts" "pdf").2 :=
  download_timeout_terminates ⟨"out"⟩ noNewFileEnv "r" "handouts" "pdf" rfl
    (by decide)

/-- C9.  `get_dir` is total: a registered category resolves to its
subdirectory of the output root, and any unknown `content_type` falls
back to the output root itself (`self.dirs.get(content_type,
self.output_dir)`), so every save or relocation resolves to a defined
destination. -/
theorem get_dir_total (d : Downloader) (content_type : String) :
    (content_type ∈ categories →
      get_dir d content_type = d.output_dir ++ "/" ++ content_type) ∧
    (content_type ∉ categories → get_dir d content_type = d.output_dir) := by
  unfold get_dir dirs
  rw [lookup_map_self]
  by_cases h : content_type ∈ categories
  · simp [h]
  · simp [h]

/-- C9 (witness).  A registered category and an unknown one, resolved by
the theorem. -/
theorem get_dir_total_witness :
    get_dir ⟨"out"⟩ "handouts" = "out" ++ "/" ++ "handouts" ∧
    get_dir ⟨"out"⟩ "unknown" = "out" :=
  ⟨(get_dir_total ⟨"out"⟩ "handouts").1 (by decide),
   (get_dir_total ⟨"out"⟩ "unknown").2 (by decide)⟩

/-- C4.  `login_google` is idempotent on an already-valid session: when
the saved cookie file exists and restores, and the signed-in probe right
after restore succeeds, the call returns `True` on the shortcut path —
no navigation to the sign-in page, no email entry, no password entry. -/
theorem login_idempotent_on_valid_cookies
    (auth : Authenticator) (argEmail argPassword : Option String) (env : AuthEnv)
    (e p : String)
    (hE : effective argEmail auth.email = some e)
    (hP : effective argPassword auth.password = some p)
    (hExists : env.cookieFileExists = true)
    (hRead : env.cookieFileReadable = true)
    (hValid : env.restoredSignedIn = true) :
    (login_google auth argEmail argPassword env).1 = true ∧
    AuthEvent.enterEmail ∉ (login_google auth argEmail argPassword env).2 ∧
    AuthEvent.enterPassword ∉ (login_google auth argEmail argPassword env).2 ∧
    AuthEvent.navigate signinUrl ∉ (login_google auth argEmail argPassword env).2 := by
  rw [login_google_eq_loginBody auth argEmail argPassword env e p hE hP]
  have h1 : AuthEvent.enterEmail ∉ addCookieEvents env := by
    intro hmem
    obtain ⟨i, hi⟩ := mem_addCookieEvents hmem
    exact AuthEvent.noConfusion hi
  have h2 : AuthEvent.enterPassword ∉ addCookieEvents env := by
    intro hmem
    obtain ⟨i, hi⟩ := mem_addCookieEvents hmem
    exact AuthEvent.noConfusion hi
  have h3 : AuthEvent.navigate signinUrl ∉ addCookieEvents env := by
    intro hmem
    obtain ⟨i, hi⟩ := mem_addCookieEvents hmem
    exact AuthEvent.noConfusion hi
  unfold loginBody loadCookies isLoggedIn
  rw [hExists, hRead, hValid]
  simp only [signinUrl, googleUrl, accountsUrl, myaccountUrl] at h1 h2 h3 ⊢
  simp [h1, h2, h3]

/-- C4 (witness).  The theorem applied to the concrete valid-session
run. -/
theorem login_idempotent_on_valid_cookies_witness :
    (login_google ⟨some "e", some "p"⟩ none none validSessionEnv).1 = true ∧
    AuthEvent.enterEmail ∉
      (login_google ⟨some "e", some "p"⟩ none none validSessionEnv).2 ∧
    AuthEvent.enterPassword ∉
      (login_google ⟨some "e", some "p"⟩ none none validSessionEnv).2 ∧
    AuthEvent.navigate signinUrl ∉
      (login_google ⟨some "e", some "p"⟩ none none validSessionEnv).2 :=
  login_idempotent_on_valid_cookies ⟨some "e", some "p"⟩ none none
    validSessionEnv "e" "p" rfl rfl rfl rfl rfl

/-- C6.  Cookie persistence within `login_google` happens exactly once
per successful fresh credential login and never otherwise: the trace
contains one `saveCookies` exactly when the call returns `True` off the
shortcut path (cookie restore succeeded and the restored session probed
signed-in means zero saves; every failure means zero saves). -/
theorem save_cookies_exactly_once_on_fresh_success
    (auth : Authenticator) (argEmail argPassword : Option String) (env : AuthEnv) :
    countSaves (login_google auth argEmail argPassword env).2 =
      cond ((login_google auth argEmail argPassword env).1 &&
        !((loadCookies env).1 && env.restoredSignedIn)) 1 0 := by
  cases hE : effective argEmail auth.email with
  | none =>
    unfold login_google
    rw [hE]
    simp [countSaves_nil]
  | some e =>
    cases hP : effective argPassword auth.password with
    | none =>
      unfold login_google
      rw [hE, hP]
      simp [countSaves_nil]
    | some p =>
      rw [login_google_eq_loginBody auth argEmail argPassword env e p hE hP]
      unfold loginBody isLoggedIn
      rcases hl : loadCookies env with ⟨loaded, loadEvents⟩
      have hcs : countSaves loadEvents = 0 := by
        have hx := countSaves_loadCookies env
        rw [hl] at hx
        exact hx
      rcases hc : credentialLogin env with ⟨r, evs⟩
      have hcc : countSaves evs = cond r 1 0 := by
        have hx := countSaves_credentialLogin env
        rw [hc] at hx
        exact hx
      cases loaded with
      | false =>
        simp [hl, hc, countSaves_cons, countSaves_append, isSave, hcs, hcc]
      | true =>
        cases hR : env.restoredSignedIn with
        | true =>
          simp [hl, hR, countSaves_cons, countSaves_append, countSaves_nil,
            isSave, hcs]
        | false =>
          simp [hl, hc, hR, countSaves_cons, countSaves_append, countSaves_nil,
            isSave, hcs, hcc]

/-- C8.  When neither an email nor a password is available — none passed
as argument, none set on the instance — `login_google` returns `False`
with an empty trace: no driver creation, no navigation, no cookie-store
access of any kind. -/
theorem login_missing_credentials_no_effects (env : AuthEnv) :
    login_google ⟨none, none⟩ none none env = (false, []) := rfl

/-- C10.  Cookie restoration is per-cookie best-effort: whenever the
cookie file exists and deserializes, `_load_cookies` reports success, and
every cookie whose injection succeeds is added regardless of how many
other cookies fail — a failing cookie aborts neither the remaining
injections nor the load itself. -/
theorem load_cookies_best_effort (env : AuthEnv)
    (hExists : env.cookieFileExists = true)
    (hRead : env.cookieFileReadable = true) :
    (loadCookies env).1 = true ∧
    ∀ i, i < env.cookies.length → env.cookies.getD i false = true →
      AuthEvent.addCookie i ∈ (loadCookies env).2 := by
  constructor
  · simp [loadCookies, hExists, hRead]
  · intro i hi hc
    unfold loadCookies
    rw [hExists, hRead]
    simp only [List.mem_cons]
    right; right
    unfold addCookieEvents
    exact List.mem_map.mpr
      ⟨i, List.mem_filter.mpr ⟨List.mem_range.mpr hi, by simpa using hc⟩, rfl⟩

/-- C10 (witness).  The theorem applied to the run whose middle cookie is
rejected: the load still succeeds and the cookie after the failing one is
still injected. -/
theorem load_cookies_best_effort_witness :
    (loadCookies mixedCookiesEnv).1 = true ∧
    AuthEvent.addCookie 2 ∈ (loadCookies mixedCookiesEnv).2 :=
  ⟨(load_cookies_best_effort mixedCookiesEnv rfl rfl).1,
   (load_cookies_best_effort mixedCookiesEnv rfl rfl).2 2 (by decide) (by decide)⟩
